import Mathlib

/-!
Shallow embedding of the `Drain` adapter from `src/index.js`.

The source adapts an event-based request/response pair on a shared emitter
into a pull-based asynchronous sequence.  We model the adapter state as a
record and each method as a pure function returning the new state together
with an ordered list of observable effects (request emitted, disposal,
promise settlement) and an optional synchronous throw.

Modelling choices:
- A response object's `done` field may be a getter whose evaluation raises
  (the test suite relies on this), so `Response.done : Except E Bool`.
- Promise identity is modelled by a `Nat` ticket: the adapter's `_current`
  slot stores the ticket of the in-flight pending holder, and settlement
  effects carry the ticket so distinct pulls returning the same promise are
  expressible.  The `fresh` counter generates tickets.
- `subscribed` records whether the bound response handler is registered on
  the emitter (`emitter.on` in the constructor, `removeListener` in
  `dispose`); the test observes this via `listenerCount`.
- `this._current.resolve` on a null `_current` would raise a TypeError in
  the source; we model that branch with `Thrown.typeError` to stay faithful
  even on states that are not reachable from the constructor.
-/

set_option autoImplicit false

deriving instance DecidableEq for Except

/-- A response payload `{ done, value }`.  Evaluating `done` may itself
raise (a getter), hence `Except E Bool`; `value` is `none` for the
JavaScript `undefined`/`null`. -/
structure Response (V E : Type) where
  done : Except E Bool
  value : Option V
  deriving DecidableEq

/-- Observable effects of one method call, in the order the source
performs them. -/
inductive Eff (V E : Type) where
  /-- `this._emitter.emit(this._request)` was called. -/
  | requested : Eff V E
  /-- `dispose()` ran: `_done := true` and the response listener removed. -/
  | disposed : Eff V E
  /-- `this._current.resolve(response)` on the pending holder `t`. -/
  | resolved (t : Nat) (r : Response V E) : Eff V E
  /-- `this._current.reject(e)` on the pending holder `t`. -/
  | rejected (t : Nat) (e : E) : Eff V E
  deriving DecidableEq

/-- `true` exactly for the settlement effects (resolve or reject). -/
def Eff.isSettlement {V E : Type} : Eff V E → Bool
  | .resolved _ _ => true
  | .rejected _ _ => true
  | _ => false

/-- A synchronous throw escaping `handleResponse`. -/
inductive Thrown where
  /-- The `throw new Error(this.toString() + ' Was not expecting ...')`. -/
  | protocolViolation (msg : String) : Thrown
  /-- Member access on a null `_current` (unreachable from the constructor). -/
  | typeError : Thrown
  deriving DecidableEq

/-- Adapter state; fields follow `src/index.js` (`_request` → `request`,
`_done` → `done`, `_current` → `current`, `_waiting` → `waiting`).
`subscribed` tracks the bound handler's registration on the emitter and
`fresh` generates pending-holder tickets. -/
structure Drain where
  request : String
  response : String
  done : Bool
  current : Option Nat
  waiting : Bool
  subscribed : Bool
  fresh : Nat
  deriving DecidableEq

namespace Drain

/-- The constructor: no request is emitted, the bound response handler is
subscribed, and the adapter starts idle. -/
def create (request response : String) : Drain :=
  { request := request, response := response, done := false, current := none,
    waiting := false, subscribed := true, fresh := 0 }

/-- `toString()`: the descriptive label embedding both event names. -/
def toString (s : Drain) : String :=
  "<Drain (request: " ++ s.request ++ " response: " ++ s.response ++ ")>"

/-- `dispose()`: sets `_done = true` and removes the response listener. -/
def dispose (s : Drain) : Drain :=
  { s with done := true, subscribed := false }

/-- `handleResponse(response)`: returns the post-call state, the ordered
effects, and the synchronous throw if one escapes.  Mirrors the source:
the waiting precondition check, then `try { if (response.done)
this.dispose(); this._current.resolve(response) } catch (e)
{ this._current.reject(e) } finally { this._current = null }`. -/
def handleResponse {V E : Type} (s : Drain) (r : Response V E) :
    Drain × List (Eff V E) × Option Thrown :=
  if s.waiting = false then
    (s, [], some (.protocolViolation
      (s.toString ++ " Was not expecting a response, but got a response")))
  else
    let s1 : Drain := { s with waiting := false }
    match r.done with
    | .error e =>
      match s1.current with
      | some t => ({ s1 with current := none }, [.rejected t e], none)
      | none => ({ s1 with current := none }, [], some .typeError)
    | .ok d =>
      let s2 : Drain := if d then s1.dispose else s1
      let ds : List (Eff V E) := if d then [.disposed] else []
      match s2.current with
      | some t => ({ s2 with current := none }, ds ++ [.resolved t r], none)
      | none => ({ s2 with current := none }, ds, some .typeError)

/-- The value a settled `next()` call yields: `{ done, value }`. -/
structure PlainResult (V : Type) where
  done : Bool
  value : Option V
  deriving DecidableEq

/-- What `next()` hands back to the caller: an already-settled result
(`Promise.resolve({done: true, value: null})`) or the promise of the
pending holder `t`. -/
inductive NextRet (V : Type) where
  | settled (r : PlainResult V) : NextRet V
  | pending (t : Nat) : NextRet V
  deriving DecidableEq

/-- `next()`: terminal short-circuit, reuse of the in-flight pending
holder, or creation of a new pending holder followed by
`_makeNextRequest` (set `_waiting`, emit the request event). -/
def next (V E : Type) (s : Drain) : Drain × NextRet V × List (Eff V E) :=
  if s.done then (s, .settled ⟨true, none⟩, [])
  else
    match s.current with
    | some t => (s, .pending t, [])
    | none =>
      let t := s.fresh
      ({ s with current := some t, waiting := true, fresh := s.fresh + 1 },
       .pending t, [.requested])

/-- One externally triggered operation on the adapter. -/
inductive Op (V E : Type) where
  | next : Op V E
  | handleResponse (r : Response V E) : Op V E
  | dispose : Op V E
  deriving DecidableEq

/-- The state transition and effects of one operation. -/
def step {V E : Type} (s : Drain) : Op V E → Drain × List (Eff V E)
  | .next => ((next V E s).1, (next V E s).2.2)
  | .handleResponse r => ((handleResponse s r).1, (handleResponse s r).2.1)
  | .dispose => (dispose s, [.disposed])

/-- Run a sequence of operations from a state. -/
def run {V E : Type} (s : Drain) : List (Op V E) → Drain
  | [] => s
  | op :: ops => run (step s op).1 ops

/-- The happy-path responder of the test suite: on each request event it
synchronously emits `{ done: responses.length === 0, value:
responses.shift() }` (the `done` field is computed before the shift). -/
def respondList (l : List String) : Response String String × List String :=
  ({ done := .ok l.isEmpty, value := l.head? }, l.tail)

/-- One consumer pull against the synchronous happy-path responder: call
`next()`; if a request was emitted the responder answers immediately and
the settlement of the shared ticket is the awaited step.  `none` models a
pull that never settles or a throw. -/
def drainStep (s : Drain) (l : List String) :
    Option (PlainResult String × Drain × List String) :=
  match next String String s with
  | (s1, .settled r, _) => some (r, s1, l)
  | (s1, .pending t, effs) =>
    if Eff.requested ∈ effs then
      match respondList l with
      | (resp, l2) =>
        match handleResponse s1 resp with
        | (s2, effs2, none) =>
          match effs2.filter Eff.isSettlement with
          | [Eff.resolved t2 r] =>
            if t2 = t then
              match r.done with
              | .ok d => some (⟨d, r.value⟩, s2, l2)
              | .error _ => none
            else none
          | _ => none
        | (_, _, some _) => none
    else none

/-- The test suite's `asyncDrain` loop: pull with `next()`, collect each
step's value until a `done: true` step arrives; `fuel` bounds the
iteration. -/
def asyncDrain : Nat → Drain → List String → List (Option String) →
    Option (List (Option String) × Drain)
  | 0, _, _, _ => none
  | fuel + 1, s, l, acc =>
    match drainStep s l with
    | none => none
    | some (st, s2, l2) =>
      if st.done then some (acc.reverse, s2)
      else asyncDrain fuel s2 l2 (st.value :: acc)

end Drain

namespace Drain

/-- Claim C2: when a pull is waiting and evaluating `response.done` raises
`e`, the pending holder is rejected with exactly `e`, nothing is resolved,
the error does not escape `handleResponse` synchronously, and the holder
is cleared. -/
theorem handleResponse_rejects_on_done_error (V E : Type) (s : Drain)
    (r : Response V E) (t : Nat) (e : E)
    (hw : s.waiting = true) (hc : s.current = some t)
    (hr : r.done = .error e) :
    handleResponse s r
      = ({ s with waiting := false, current := none },
         [Eff.rejected t e], none) := by
  simp [handleResponse, hw, hr, hc]

/-- Claim C2 witness at a concrete adapter state and response. -/
theorem handleResponse_rejects_on_done_error_witness :
    let s : Drain := { request := "q", response := "p", done := false,
                       current := some 0, waiting := true, subscribed := true,
                       fresh := 1 }
    let r : Response String String := { done := .error "boom", value := none }
    handleResponse s r
      = ({ s with waiting := false, current := none },
         [Eff.rejected 0 "boom"], none) :=
  handleResponse_rejects_on_done_error String String _ _ 0 "boom" rfl rfl rfl

/-- Claim C3: invoking `handleResponse` while not waiting throws
synchronously; the state is untouched, no effect happens, and the thrown
message is the descriptive label followed by the fixed text, the label
embedding both configured event names. -/
theorem handleResponse_throws_when_not_waiting (V E : Type) (s : Drain)
    (r : Response V E) (hw : s.waiting = false) :
    handleResponse s r
      = (s, [], some (Thrown.protocolViolation
          (s.toString ++ " Was not expecting a response, but got a response")))
      ∧ s.toString
        = "<Drain (request: " ++ s.request ++ " response: "
            ++ s.response ++ ")>" := by
  constructor
  · simp [handleResponse, hw]
  · rfl

/-- Claim C3 witness: a fresh adapter is not waiting, and the thrown
message carries both event names. -/
theorem handleResponse_throws_when_not_waiting_witness :
    handleResponse (create "req-ev" "res-ev")
        ({ done := .ok true, value := none } : Response String String)
      = (create "req-ev" "res-ev", [], some (Thrown.protocolViolation
          ((create "req-ev" "res-ev").toString
            ++ " Was not expecting a response, but got a response")))
      ∧ (create "req-ev" "res-ev").toString
        = "<Drain (request: " ++ (create "req-ev" "res-ev").request
            ++ " response: " ++ (create "req-ev" "res-ev").response ++ ")>" :=
  handleResponse_throws_when_not_waiting String String _ _ rfl

/-- Claim C4: on a `done: true` response while waiting, disposal (terminal
flag set, listener removed) happens in the same synchronous step and, in
the effect order, strictly before the pending holder is resolved with the
full response object. -/
theorem handleResponse_disposes_before_resolve (V E : Type) (s : Drain)
    (r : Response V E) (t : Nat)
    (hw : s.waiting = true) (hc : s.current = some t)
    (hr : r.done = .ok true) :
    handleResponse s r
      = ({ s with waiting := false, done := true, subscribed := false,
                  current := none },
         [Eff.disposed, Eff.resolved t r], none) := by
  simp [handleResponse, dispose, hw, hr, hc]

/-- Claim C4 witness at a concrete waiting adapter and terminal response. -/
theorem handleResponse_disposes_before_resolve_witness :
    let s : Drain := { request := "q", response := "p", done := false,
                       current := some 3, waiting := true, subscribed := true,
                       fresh := 4 }
    let r : Response String String := { done := .ok true, value := some "z" }
    handleResponse s r
      = ({ s with waiting := false, done := true, subscribed := false,
                  current := none },
         [Eff.disposed, Eff.resolved 3 r], none) :=
  handleResponse_disposes_before_resolve String String _ _ 3 rfl rfl rfl

/-- Claim C5: once `done` is true, `next()` yields `{done: true, value:
null}` with no state change and no bus interaction, and any number of
repeated `next` operations leaves the adapter exactly as it was. -/
theorem next_after_done_terminal (V E : Type) (s : Drain) (n : Nat)
    (h : s.done = true) :
    next V E s = (s, .settled ⟨true, none⟩, [])
      ∧ run s (List.replicate n (Op.next : Op V E)) = s := by
  refine ⟨by simp [next, h], ?_⟩
  induction n with
  | zero => rfl
  | succ n ih => simpa [run, step, next, h] using ih

/-- Claim C5 witness: a disposed adapter, five repeated `next` calls. -/
theorem next_after_done_terminal_witness :
    let s : Drain := dispose (create "q" "p")
    next String String s = (s, .settled ⟨true, none⟩, [])
      ∧ run s (List.replicate 5 (Op.next : Op String String)) = s :=
  next_after_done_terminal String String _ 5 rfl

/-- Claim C9: `dispose()` sets `done`, removes the subscription, leaves
the pending holder and the waiting flag untouched (so an outstanding pull
is neither resolved nor rejected nor cleared), performs no settlement
effect, and is idempotent. -/
theorem dispose_frame (V E : Type) (s : Drain) :
    (dispose s).done = true
      ∧ (dispose s).subscribed = false
      ∧ (dispose s).current = s.current
      ∧ (dispose s).waiting = s.waiting
      ∧ ((step s (Op.dispose : Op V E)).2).filter Eff.isSettlement = []
      ∧ dispose (dispose s) = dispose s := by
  refine ⟨rfl, rfl, rfl, rfl, ?_, rfl⟩
  simp [step, Eff.isSettlement]

/-- Helper: each operation preserves the invariant that a waiting adapter
holds a pending holder. -/
theorem step_waiting_imp_current {V E : Type} (s : Drain) (op : Op V E)
    (h : s.waiting = true → s.current ≠ none) :
    (step s op).1.waiting = true → (step s op).1.current ≠ none := by
  cases op with
  | next =>
    by_cases hd : s.done
    · simpa [step, next, hd] using h
    · rcases hc : s.current with _ | t
      · simp [step, next, hd, hc]
      · simp [step, next, hd, hc]
  | handleResponse r =>
    by_cases hwf : s.waiting = false
    · simp [step, handleResponse, hwf]
    · rcases hr : r.done with e | d
      · rcases hc : s.current <;> simp [step, handleResponse, hwf, hr, hc]
      · rcases hc : s.current <;> cases d <;>
          simp [step, handleResponse, dispose, hwf, hr, hc]
  | dispose => simpa [step, dispose] using h

/-- Helper: in every state reachable from the constructor, waiting implies
a pending holder exists. -/
theorem run_waiting_imp_current {V E : Type} (req res : String)
    (ops : List (Op V E)) :
    (run (create req res) ops).waiting = true →
      (run (create req res) ops).current ≠ none := by
  suffices h : ∀ (s : Drain), (s.waiting = true → s.current ≠ none) →
      ((run s ops).waiting = true → (run s ops).current ≠ none) by
    exact h (create req res) (by simp [create])
  induction ops with
  | nil => exact fun s hs => hs
  | cons op ops ih =>
    exact fun s hs => ih (step s op).1 (step_waiting_imp_current s op hs)

/-- Claim C7: whenever `handleResponse` passes the waiting precondition on
a state reachable from the constructor, exactly one settlement (resolve or
reject) is performed — never both, never neither — and the pending holder
reference is cleared afterward, with no synchronous throw. -/
theorem handleResponse_settles_exactly_once (V E : Type) (req res : String)
    (ops : List (Op V E)) (s : Drain) (r : Response V E)
    (hs : s = run (create req res) ops) (hw : s.waiting = true) :
    ((handleResponse s r).2.1.filter Eff.isSettlement).length = 1
      ∧ (handleResponse s r).1.current = none
      ∧ (handleResponse s r).2.2 = none := by
  subst hs
  obtain ⟨t, hc⟩ :=
    Option.ne_none_iff_exists'.mp (run_waiting_imp_current req res ops hw)
  rcases hr : r.done with e | d
  · simp [handleResponse, hw, hr, hc, Eff.isSettlement]
  · cases d <;>
      simp [handleResponse, dispose, hw, hr, hc, Eff.isSettlement]

/-- Claim C7 witness: the state after one `next()` on a fresh adapter. -/
theorem handleResponse_settles_exactly_once_witness :
    let s : Drain := run (create "q" "p") [(Op.next : Op String String)]
    let r : Response String String := { done := .ok false, value := some "a" }
    ((handleResponse s r).2.1.filter Eff.isSettlement).length = 1
      ∧ (handleResponse s r).1.current = none
      ∧ (handleResponse s r).2.2 = none :=
  handleResponse_settles_exactly_once String String "q" "p" _ _ _ rfl rfl

/-- Claim C1: with `done` false, a `next()` while a pending holder exists
returns that same pending result and emits nothing; starting with no
pending holder, two `next()` calls share one ticket, emit exactly one
request between them, and a single response settles that shared holder
once with that response. -/
theorem next_at_most_one_in_flight (V E : Type) (s : Drain)
    (r : Response V E) (d : Bool) (t0 : Nat)
    (hdone : s.done = false) (hr : r.done = .ok d) :
    (s.current = some t0 → next V E s = (s, .pending t0, []))
      ∧ (s.current = none → ∃ t,
          (next V E s).2.1 = NextRet.pending t
            ∧ (next V E s).2.2 = [Eff.requested]
            ∧ next V E (next V E s).1 = ((next V E s).1, .pending t, [])
            ∧ ((handleResponse (next V E s).1 r).2.1.filter Eff.isSettlement)
                = [Eff.resolved t r]
            ∧ (handleResponse (next V E s).1 r).2.2 = none) := by
  constructor
  · intro hc
    simp [next, hdone, hc]
  · intro hc
    refine ⟨s.fresh, ?_, ?_, ?_, ?_, ?_⟩ <;> cases d <;>
      simp [next, handleResponse, dispose, hdone, hc, hr, Eff.isSettlement]

/-- Claim C1 witness: a fresh adapter, two pulls, one non-terminal
response. -/
theorem next_at_most_one_in_flight_witness :
    let s : Drain := create "q" "p"
    let r : Response String String := { done := .ok false, value := some "a" }
    (s.current = some 7 → next String String s = (s, .pending 7, []))
      ∧ (s.current = none → ∃ t,
          (next String String s).2.1 = NextRet.pending t
            ∧ (next String String s).2.2 = [Eff.requested]
            ∧ next String String (next String String s).1
                = ((next String String s).1, .pending t, [])
            ∧ ((handleResponse (next String String s).1 r).2.1.filter
                  Eff.isSettlement)
                = [Eff.resolved t r]
            ∧ (handleResponse (next String String s).1 r).2.2 = none) :=
  next_at_most_one_in_flight String String _ _ false 7 rfl rfl

/-- Claim C10: a protocol-violation throw is atomic: with `waiting` false,
`handleResponse` throws the protocol-violation error with the state and
effects untouched, and (when the adapter is idle and not done) a
subsequent valid `next()`/response cycle still works normally. -/
theorem unexpected_response_throw_atomic (V E : Type) (s : Drain)
    (r r2 : Response V E) (d : Bool)
    (hw : s.waiting = false) (hr2 : r2.done = .ok d) :
    (handleResponse s r).1 = s
      ∧ (handleResponse s r).2.1 = []
      ∧ (∃ m, (handleResponse s r).2.2 = some (Thrown.protocolViolation m))
      ∧ (s.done = false → s.current = none →
          (next V E s).2.2 = [Eff.requested]
            ∧ ((handleResponse (next V E s).1 r2).2.1.filter Eff.isSettlement)
                = [Eff.resolved s.fresh r2]
            ∧ (handleResponse (next V E s).1 r2).2.2 = none) := by
  refine ⟨by simp [handleResponse, hw], by simp [handleResponse, hw], ?_, ?_⟩
  · exact ⟨s.toString ++ " Was not expecting a response, but got a response",
      by simp [handleResponse, hw]⟩
  · intro hd hc
    refine ⟨?_, ?_, ?_⟩ <;> cases d <;>
      simp [next, handleResponse, dispose, hd, hc, hr2, Eff.isSettlement]

/-- Claim C10 witness: a fresh idle adapter, then a valid cycle with a
terminal response. -/
theorem unexpected_response_throw_atomic_witness :
    let s : Drain := create "q" "p"
    let r : Response String String := { done := .ok true, value := none }
    (handleResponse s r).1 = s
      ∧ (handleResponse s r).2.1 = []
      ∧ (∃ m, (handleResponse s r).2.2 = some (Thrown.protocolViolation m))
      ∧ (s.done = false → s.current = none →
          (next String String s).2.2 = [Eff.requested]
            ∧ ((handleResponse (next String String s).1 r).2.1.filter
                  Eff.isSettlement)
                = [Eff.resolved s.fresh r]
            ∧ (handleResponse (next String String s).1 r).2.2 = none) :=
  unexpected_response_throw_atomic String String _ _ _ true rfl rfl

/-- Helper: one operation never unsets the `done` flag. -/
theorem step_done_mono {V E : Type} (s : Drain) (op : Op V E)
    (h : s.done = true) : (step s op).1.done = true := by
  cases op with
  | next => simp [step, next, h]
  | handleResponse r =>
    by_cases hwf : s.waiting = false
    · simp [step, handleResponse, hwf, h]
    · rcases hr : r.done with e | d
      · rcases hc : s.current <;>
          simp [step, handleResponse, hwf, hr, hc, h]
      · rcases hc : s.current <;> cases d <;>
          simp [step, handleResponse, dispose, hwf, hr, hc, h]
  | dispose => simp [step, dispose]

/-- Helper: `done` stays true along any continuation. -/
theorem run_done_mono {V E : Type} (s : Drain) (ops : List (Op V E))
    (h : s.done = true) : (run s ops).done = true := by
  induction ops generalizing s with
  | nil => exact h
  | cons op ops ih => exact ih _ (step_done_mono s op h)

/-- Helper: no operation on a finished adapter emits a request event. -/
theorem step_no_request_when_done {V E : Type} (s : Drain) (op : Op V E)
    (h : s.done = true) : Eff.requested ∉ (step s op).2 := by
  cases op with
  | next => simp [step, next, h]
  | handleResponse r =>
    by_cases hwf : s.waiting = false
    · simp [step, handleResponse, hwf]
    · rcases hr : r.done with e | d
      · rcases hc : s.current <;>
          simp [step, handleResponse, hwf, hr, hc]
      · rcases hc : s.current <;> cases d <;>
          simp [step, handleResponse, dispose, hwf, hr, hc]
  | dispose => simp [step]

/-- Helper: each operation preserves that a finished adapter is
unsubscribed. -/
theorem step_done_imp_unsub {V E : Type} (s : Drain) (op : Op V E)
    (h : s.done = true → s.subscribed = false) :
    (step s op).1.done = true → (step s op).1.subscribed = false := by
  cases op with
  | next =>
    rcases hd : s.done
    · rcases hc : s.current <;> simp [step, next, hd, hc]
    · simpa [step, next, hd] using h hd
  | handleResponse r =>
    by_cases hwf : s.waiting = false
    · simpa [step, handleResponse, hwf] using h
    · rcases hr : r.done with e | d
      · rcases hc : s.current <;>
          simpa [step, handleResponse, hwf, hr, hc] using h
      · rcases hc : s.current <;> cases d <;>
          simp [step, handleResponse, dispose, hwf, hr, hc] <;> exact h
  | dispose => simp [step, dispose]

/-- Helper: from the constructor, a finished adapter is unsubscribed. -/
theorem run_done_imp_unsub {V E : Type} (req res : String)
    (ops : List (Op V E)) :
    (run (create req res) ops).done = true →
      (run (create req res) ops).subscribed = false := by
  suffices h : ∀ (s : Drain), (s.done = true → s.subscribed = false) →
      ((run s ops).done = true → (run s ops).subscribed = false) by
    exact h (create req res) (by simp [create])
  induction ops with
  | nil => exact fun s hs => hs
  | cons op ops ih =>
    exact fun s hs => ih (step s op).1 (step_done_imp_unsub s op hs)

/-- Claim C8: along every operation sequence from the constructor, `done`
is monotonic — once true it stays true under any further operations — and
once true no operation emits a request event and the response subscription
has been removed. -/
theorem done_monotonic (V E : Type) (req res : String)
    (ops ops2 : List (Op V E)) (op : Op V E)
    (h : (run (create req res) ops).done = true) :
    (run (run (create req res) ops) ops2).done = true
      ∧ Eff.requested ∉ (step (run (create req res) ops) op).2
      ∧ (run (create req res) ops).subscribed = false :=
  ⟨run_done_mono _ ops2 h, step_no_request_when_done _ op h,
   run_done_imp_unsub req res ops h⟩

/-- Claim C8 witness: dispose, then try a further `next`. -/
theorem done_monotonic_witness :
    (run (create "q" "p") ([Op.dispose] : List (Op String String))).done = true
      ∧ ((run (run (create "q" "p")
            ([Op.dispose] : List (Op String String)))
            ([Op.next] : List (Op String String))).done = true
          ∧ Eff.requested ∉ (step (run (create "q" "p")
              ([Op.dispose] : List (Op String String)))
              (Op.next : Op String String)).2
          ∧ (run (create "q" "p")
              ([Op.dispose] : List (Op String String))).subscribed = false) :=
  ⟨by decide,
   done_monotonic String String "q" "p" [Op.dispose] [Op.next] Op.next
     (by decide)⟩

/-- Claim C6: with the test suite's happy-path responder over
`["a", "b", "c"]`, repeatedly calling `next()` until a `done: true` result
yields exactly the values `"a", "b", "c"` in order, after which the
adapter is done and the response subscription count is 0. -/
theorem happy_path_drains_abc :
    (asyncDrain 10
        (create "testem:next-module-request" "testem:next-module-response")
        ["a", "b", "c"] []).map
        (fun p => (p.1, p.2.done, p.2.subscribed))
      = some ([some "a", some "b", some "c"], true, false) := by
  decide

end Drain
